import Mathlib

/-!
Shallow embedding of the Personal Voice TTS service (src/app.py).

The core state is the in-memory artifact store `AUDIO_STORE`, a Python dict
mapping an opaque id to a pair `(created_ts, mp3_bytes)`.  We model the dict
as an association list preserving insertion order, as Python dicts do;
timestamps are modelled as integers (Python uses `time.time()` floats, and
every property at stake is an order comparison), byte payloads as `List Nat`,
and speeds as rationals.  The external OpenAI provider is modelled as an
oracle from call arguments to an outcome (a returned audio object, a
`TypeError`, or another exception); each handler additionally returns the
list of provider calls it made, so that claims about the provider being or
not being invoked are expressible.
-/

namespace VoiceTTS

/-- Audio payloads: byte sequences, modelled as lists of bytes. -/
abbrev Bytes := List Nat

/-- One stored entry: `(created_ts, mp3_bytes)` in `AUDIO_STORE`. -/
structure Artifact where
  created : Int
  payload : Bytes
deriving DecidableEq, Repr

/-- `AUDIO_STORE : Dict[str, Tuple[float, bytes]]`, as an insertion-ordered
association list. -/
abbrev Store := List (String × Artifact)

/-- `cleanup()` from app.py: removes every entry whose age exceeds the TTL
(removal predicate `now - ts > TTL_SECONDS`), keeping the rest in order. -/
def cleanup (ttl now : Int) (s : Store) : Store :=
  s.filter (fun e => !decide (now - e.2.created > ttl))

/-- `AUDIO_STORE.get(audio_id)`: first binding for the id, if any. -/
def lookup (s : Store) (id : String) : Option Artifact :=
  (s.find? (fun e => e.1 == id)).map (fun e => e.2)

/-- `AUDIO_STORE[audio_id] = (ts, bytes)`: Python dict assignment, which
overwrites in place when the key exists and appends otherwise. -/
def storePut (s : Store) (id : String) (a : Artifact) : Store :=
  if (s.find? (fun e => e.1 == id)).isSome then
    s.map (fun e => if e.1 == id then (id, a) else e)
  else
    s ++ [(id, a)]

/-- Python's `str.strip()` whitespace test (ASCII whitespace suffices here). -/
def isPySpace (c : Char) : Bool :=
  c = ' ' || c = '\t' || c = '\n' || c = '\r' || c = '\x0b' || c = '\x0c'

/-- Python's `str.strip()`: drop leading and trailing whitespace. -/
def pyStrip (s : String) : String :=
  String.mk (((s.toList.dropWhile isPySpace).reverse.dropWhile isPySpace).reverse)

/-- Python's `a or b` on strings: the empty string is falsy. -/
def pyOrS (a b : String) : String :=
  if a = "" then b else a

/-- `(v or DEFAULT_VOICE).strip() or DEFAULT_VOICE`, with `None` mapped to
the falsy empty string. -/
def resolveVoiceOpt (dflt : String) (v : Option String) : String :=
  pyOrS (pyStrip (pyOrS (v.getD "") dflt)) dflt

/-- `float(req.speed or DEFAULT_SPEED)`: `None` and `0` are falsy. -/
def resolveSpeed (dflt : ℚ) (sp : Option ℚ) : ℚ :=
  match sp with
  | none => dflt
  | some q => if q = 0 then dflt else q

/-- `build_tts_input(style, text)` from app.py. -/
def build_tts_input (style text : String) : String :=
  let style := pyStrip style
  let text := pyStrip text
  if style ≠ "" then
    "[STYLE]\n" ++ style ++ "\n\n[SCRIPT]\n" ++ text ++ "\n"
  else
    text

/-- The object returned by `client.audio.speech.create`: it may expose
`read()`, or a `content` attribute, or neither (then `getattr` yields `b""`). -/
inductive AudioObj where
  | readable (data : Bytes)
  | withContent (data : Bytes)
  | plain
deriving DecidableEq, Repr

/-- `audio.read() if hasattr(audio, "read") else getattr(audio, "content", b"")`. -/
def extractBytes : AudioObj → Bytes
  | .readable d => d
  | .withContent d => d
  | .plain => []

/-- Python exceptions the provider may raise: a `TypeError` (the SDK
rejecting the `speed` keyword) or anything else. -/
inductive PyExc where
  | typeError (msg : String)
  | other (msg : String)
deriving DecidableEq, Repr

/-- `str(e)` for the exceptions above. -/
def excStr : PyExc → String
  | .typeError m => m
  | .other m => m

/-- The arguments of one `client.audio.speech.create` call. -/
structure CallArgs where
  model : String
  voice : String
  input : String
  response_format : String
  speed : Option ℚ
deriving DecidableEq, Repr

/-- One provider call either returns an audio object or raises. -/
inductive ProviderOutcome where
  | ok (obj : AudioObj)
  | exc (e : PyExc)
deriving DecidableEq, Repr

/-- A provider oracle: the outcome of a call for given arguments. -/
abbrev Provider := CallArgs → ProviderOutcome

/-- `create_speech_mp3(input_text, voice, speed)` from app.py: resolve the
voice, call the provider with `speed`; if that raises `TypeError`, retry once
without `speed`.  Any other exception (and any exception of the second call)
propagates.  Also returns the list of provider calls actually made. -/
def create_speech_mp3 (dfltVoice : String) (provider : Provider)
    (input_text voice0 : String) (speed : ℚ) :
    Except PyExc Bytes × List CallArgs :=
  let voice := pyOrS (pyStrip (pyOrS voice0 dfltVoice)) dfltVoice
  let args1 : CallArgs :=
    { model := "gpt-4o-mini-tts", voice := voice, input := input_text,
      response_format := "mp3", speed := some speed }
  match provider args1 with
  | .ok audio => (.ok (extractBytes audio), [args1])
  | .exc (.typeError _) =>
      let args2 : CallArgs :=
        { model := "gpt-4o-mini-tts", voice := voice, input := input_text,
          response_format := "mp3", speed := none }
      match provider args2 with
      | .ok audio => (.ok (extractBytes audio), [args1, args2])
      | .exc e => (.error e, [args1, args2])
  | .exc (.other m) => (.error (.other m), [args1])

/-- The JSON body of `POST /tts` and `POST /tts/mp3` (`TTSRequest`): optional
fields model both absence and an explicit `null`. -/
structure TTSRequest where
  text : String
  style : Option String
  voice : Option String
  speed : Option ℚ
deriving DecidableEq, Repr

/-- Outcome of the `POST /tts` handler: the `TTSResponse` JSON or an
`HTTPException`. -/
inductive TtsResult where
  | ok (id : String) (audio_url : String) (expires_in_seconds : Int)
  | httpError (status : Nat) (detail : String)
deriving DecidableEq, Repr

/-- Outcome of the `POST /tts/mp3` handler: a streaming MP3 response with its
headers, or an `HTTPException`. -/
inductive Mp3Result where
  | ok (audio : Bytes) (mediaType : String) (contentDisposition : String)
      (cacheControl : String)
  | httpError (status : Nat) (detail : String)
deriving DecidableEq, Repr

/-- Outcome of the `GET /audio/{id}.mp3` handler. -/
inductive GetResult where
  | ok (audio : Bytes)
  | notFound
deriving DecidableEq, Repr

/-- The `tts` handler (`POST /tts`): cleanup, validate text, resolve voice
and speed, synthesize, store the bytes under a fresh id, return the locator.
`now` is the clock reading, `freshId` the `uuid4().hex` value, `baseUrl` the
result of `get_base_url`.  Returns the response, the resulting store, and
the provider calls made. -/
def tts (ttl : Int) (dfltVoice : String) (dfltSpeed : ℚ) (provider : Provider)
    (now : Int) (freshId baseUrl : String) (req : TTSRequest) (store : Store) :
    TtsResult × Store × List CallArgs :=
  let s1 := cleanup ttl now store
  let text := pyStrip req.text
  if text = "" then
    (.httpError 400 "text is empty", s1, [])
  else
    let voice := resolveVoiceOpt dfltVoice req.voice
    let speed := resolveSpeed dfltSpeed req.speed
    let ttsInput := build_tts_input (req.style.getD "") text
    match create_speech_mp3 dfltVoice provider ttsInput voice speed with
    | (.error e, calls) =>
        (.httpError 500 ("TTS failed: " ++ excStr e), s1, calls)
    | (.ok b, calls) =>
        if b.isEmpty then
          (.httpError 500 "TTS failed: Empty audio returned", s1, calls)
        else
          let s2 := storePut s1 freshId { created := now, payload := b }
          (.ok freshId (baseUrl ++ "/audio/" ++ freshId ++ ".mp3") ttl, s2, calls)

/-- The `tts_mp3` handler (`POST /tts/mp3`): cleanup, validate, synthesize,
return the bytes directly with streaming headers; nothing is stored. -/
def tts_mp3 (ttl : Int) (dfltVoice : String) (dfltSpeed : ℚ)
    (provider : Provider) (now : Int) (req : TTSRequest) (store : Store) :
    Mp3Result × Store × List CallArgs :=
  let s1 := cleanup ttl now store
  let text := pyStrip req.text
  if text = "" then
    (.httpError 400 "text is empty", s1, [])
  else
    let voice := resolveVoiceOpt dfltVoice req.voice
    let speed := resolveSpeed dfltSpeed req.speed
    let ttsInput := build_tts_input (req.style.getD "") text
    match create_speech_mp3 dfltVoice provider ttsInput voice speed with
    | (.error e, calls) =>
        (.httpError 500 ("TTS failed: " ++ excStr e), s1, calls)
    | (.ok b, calls) =>
        if b.isEmpty then
          (.httpError 500 "TTS failed: Empty audio returned", s1, calls)
        else
          (.ok b "audio/mpeg" "inline; filename=\"tts.mp3\"" "no-store",
           s1, calls)

/-- The `get_audio` handler (`GET /audio/{id}.mp3`): cleanup, then serve the
stored bytes or 404.  Returns the response and the resulting store. -/
def get_audio (ttl now : Int) (s : Store) (id : String) : GetResult × Store :=
  let s1 := cleanup ttl now s
  match lookup s1 id with
  | none => (.notFound, s1)
  | some a => (.ok a.payload, s1)

/-- `os.getenv(k)` over an environment modelled as an association list. -/
def pyGetenv (env : List (String × String)) (k : String) : Option String :=
  (env.find? (fun e => e.1 == k)).map (fun e => e.2)

/-- Base-10 digit accumulation for `pyInt`. -/
def digitsToNat (cs : List Char) : Nat :=
  cs.foldl (fun n c => n * 10 + (c.toNat - '0'.toNat)) 0

/-- Python's `int(str)`: strip whitespace, optional sign, base-10 digits;
`none` models the `ValueError` on malformed input (underscore digit
separators are not modelled). -/
def pyInt (s : String) : Option Int :=
  match (pyStrip s).toList with
  | [] => none
  | c :: rest =>
      if c = '-' then
        if !rest.isEmpty && rest.all Char.isDigit then
          some (-(Int.ofNat (digitsToNat rest)))
        else none
      else if c = '+' then
        if !rest.isEmpty && rest.all Char.isDigit then
          some (Int.ofNat (digitsToNat rest))
        else none
      else
        if (c :: rest).all Char.isDigit then
          some (Int.ofNat (digitsToNat (c :: rest)))
        else none

/-- `TTL_SECONDS = int(os.getenv("AUDIO_TTL_SECONDS", "3600"))` from app.py
(`none` models `int()` failing on a malformed value). -/
def TTL_SECONDS (env : List (String × String)) : Option Int :=
  pyInt ((pyGetenv env "AUDIO_TTL_SECONDS").getD "3600")

/-! ## Helper lemmas about the store operations -/

/-- An entry found by `find?` that survives a `filter` is still the first
match after the `filter`. -/
theorem find?_filter_of_found {α : Type} (p q : α → Bool) :
    ∀ (l : List α) (a : α), l.find? p = some a → q a = true →
      (l.filter q).find? p = some a := by
  intro l
  induction l with
  | nil => intro a h _; simp [List.find?] at h
  | cons x t ih =>
      intro a h hq
      cases hx : p x with
      | true =>
          simp [List.find?, hx] at h
          subst h
          simp [List.filter, hq, List.find?, hx]
      | false =>
          simp only [List.find?, hx] at h
          cases hqx : q x with
          | true => simpa [List.filter, hqx, List.find?, hx] using ih a h hq
          | false => simpa [List.filter, hqx] using ih a h hq

/-- With unique keys, once the (unique) entry for a key is dropped by a
`filter`, no entry for that key remains. -/
theorem find?_filter_of_dropped (s : Store) (id : String)
    (a : String × Artifact) (q : String × Artifact → Bool)
    (hnd : (s.map Prod.fst).Nodup)
    (h : s.find? (fun e => e.1 == id) = some a) (hq : q a = false) :
    (s.filter q).find? (fun e => e.1 == id) = none := by
  rw [List.find?_eq_none]
  intro e he
  have hes : e ∈ s := (List.mem_filter.mp he).1
  have heq : q e = true := (List.mem_filter.mp he).2
  intro hkey
  have has : a ∈ s := List.mem_of_find?_eq_some h
  have hak : a.1 = id := by simpa using List.find?_some h
  have hkeys : e.1 = a.1 := by
    have h1 : e.1 = id := by simpa using hkey
    rw [h1, hak]
  have : e = a := List.inj_on_of_nodup_map hnd hes has hkeys
  rw [this, hq] at heq
  exact Bool.false_ne_true heq

/-- `find?` on a mapped overwrite: the first entry for `id` becomes `(id, a)`. -/
theorem find?_map_overwrite (id : String) (a : Artifact) :
    ∀ s : Store, (s.find? (fun e => e.1 == id)).isSome = true →
      ((s.map (fun e => if e.1 == id then (id, a) else e)).find?
        (fun e => e.1 == id)) = some (id, a) := by
  intro s
  induction s with
  | nil => intro h; simp [List.find?] at h
  | cons x t ih =>
      intro h
      cases hx : (x.1 == id) with
      | true => simp [List.map, List.find?, hx]
      | false =>
          simp only [List.find?, hx] at h
          simpa [List.map, List.find?, hx] using ih h

/-- `find?` after appending the entry for a key not yet present. -/
theorem find?_append_fresh (id : String) (a : Artifact) :
    ∀ s : Store, s.find? (fun e => e.1 == id) = none →
      ((s ++ [(id, a)]).find? (fun e => e.1 == id)) = some (id, a) := by
  intro s
  induction s with
  | nil => intro _; simp [List.find?]
  | cons x t ih =>
      intro h
      cases hx : (x.1 == id) with
      | true => simp [List.find?, hx] at h
      | false =>
          simp only [List.find?, hx] at h
          simpa [List.cons_append, List.find?, hx] using ih h

/-- Python dict assignment then lookup: `find?` sees the new binding. -/
theorem find?_storePut (s : Store) (id : String) (a : Artifact) :
    (storePut s id a).find? (fun e => e.1 == id) = some (id, a) := by
  unfold storePut
  by_cases h : (s.find? (fun e => e.1 == id)).isSome = true
  · rw [if_pos h]
    exact find?_map_overwrite id a s h
  · rw [if_neg h]
    have hn : s.find? (fun e => e.1 == id) = none := by
      cases hf : s.find? (fun e => e.1 == id)
      · rfl
      · exact absurd (by simp [hf]) h
    exact find?_append_fresh id a s hn

/-- The sweep is a `filter`, hence idempotent. -/
theorem cleanup_cleanup (ttl now : Int) (s : Store) :
    cleanup ttl now (cleanup ttl now s) = cleanup ttl now s := by
  unfold cleanup
  rw [List.filter_filter]
  simp

/-- Membership in the swept store. -/
theorem mem_cleanup (ttl now : Int) (s : Store) (e : String × Artifact) :
    e ∈ cleanup ttl now s ↔ e ∈ s ∧ now - e.2.created ≤ ttl := by
  unfold cleanup
  rw [List.mem_filter]
  simp [not_lt]

/-- `get_audio` when the swept store has no entry for the id. -/
theorem get_audio_lookup_none (ttl now : Int) (s : Store) (id : String)
    (h : lookup (cleanup ttl now s) id = none) :
    get_audio ttl now s id = (GetResult.notFound, cleanup ttl now s) := by
  unfold get_audio
  simp only [h]

/-- `get_audio` when the swept store still has an entry for the id. -/
theorem get_audio_lookup_some (ttl now : Int) (s : Store) (id : String)
    (a : Artifact) (h : lookup (cleanup ttl now s) id = some a) :
    get_audio ttl now s id = (GetResult.ok a.payload, cleanup ttl now s) := by
  unfold get_audio
  simp only [h]

/-- A found entry young enough to survive the sweep is still the result of
`lookup` afterwards. -/
theorem lookup_cleanup_of_found (ttl now : Int) (s : Store) (id : String)
    (e : String × Artifact)
    (hfind : s.find? (fun x => x.1 == id) = some e)
    (hkeep : now - e.2.created ≤ ttl) :
    lookup (cleanup ttl now s) id = some e.2 := by
  have hq : (fun x : String × Artifact =>
      !decide (now - x.2.created > ttl)) e = true := by
    simp
    omega
  unfold lookup cleanup
  rw [find?_filter_of_found (fun x => x.1 == id)
    (fun x : String × Artifact => !decide (now - x.2.created > ttl))
    s e hfind hq]
  rfl

/-! ## Claim theorems -/

/-- C6: the eviction sweep is idempotent — for every store state and fixed
clock reading, a second `cleanup` right after a first removes nothing more —
and `cleanup` on the empty store is a no-op. -/
theorem cleanup_idempotent_and_empty_noop (ttl now : Int) (s : Store) :
    cleanup ttl now (cleanup ttl now s) = cleanup ttl now s ∧
    cleanup ttl now ([] : Store) = [] :=
  ⟨cleanup_cleanup ttl now s, rfl⟩

/-- C7: with `ttl ≤ 0`, the literal predicate `now - created > ttl` holds
for every artifact created strictly before the access, so the sweep deletes
the whole store and every lookup returns `NotFound`. -/
theorem nonpositive_ttl_expires_immediately (ttl now : Int) (s : Store)
    (h0 : ttl ≤ 0) (hall : ∀ e ∈ s, e.2.created < now) :
    cleanup ttl now s = [] ∧
    ∀ id, (get_audio ttl now s id).1 = GetResult.notFound := by
  have hclean : cleanup ttl now s = [] := by
    unfold cleanup
    rw [List.filter_eq_nil_iff]
    intro e he
    have hlt := hall e he
    have hgt : now - e.2.created > ttl := by omega
    simp [hgt]
  refine ⟨hclean, fun id => ?_⟩
  have hnone : lookup (cleanup ttl now s) id = none := by
    rw [hclean]; rfl
  rw [get_audio_lookup_none ttl now s id hnone]

/-- C7 witness: with `ttl = 0` and an entry created at time 0, an access at
time 1 sweeps the entry away and the lookup 404s. -/
theorem nonpositive_ttl_expires_immediately_witness :
    cleanup 0 1 [("a", { created := 0, payload := [7] })] = [] ∧
    (get_audio 0 1 [("a", { created := 0, payload := [7] })] "a").1 =
      GetResult.notFound := by
  have h := nonpositive_ttl_expires_immediately 0 1
    [("a", { created := 0, payload := [7] })] (by decide) (by decide)
  exact ⟨h.1, h.2 "a"⟩

/-- C1: for a stored artifact `(t0, p)` under unique keys, `get` after the
sweep returns `NotFound` whenever `now - t0 > ttl` and the payload whenever
`now - t0 ≤ ttl`; the 404 needs no earlier sweep because `get_audio` sweeps
itself. -/
theorem get_ttl_boundary (ttl now t0 : Int) (s : Store) (id : String)
    (p : Bytes) (hnd : (s.map Prod.fst).Nodup)
    (hl : lookup s id = some { created := t0, payload := p }) :
    (now - t0 > ttl → (get_audio ttl now s id).1 = GetResult.notFound) ∧
    (now - t0 ≤ ttl → (get_audio ttl now s id).1 = GetResult.ok p) := by
  obtain ⟨e, hfind, he2⟩ :
      ∃ e, s.find? (fun e => e.1 == id) = some e ∧
        e.2 = { created := t0, payload := p } := by
    unfold lookup at hl
    cases hf : s.find? (fun e => e.1 == id) with
    | none => rw [hf] at hl; simp at hl
    | some e =>
        rw [hf] at hl
        simp at hl
        exact ⟨e, rfl, hl⟩
  constructor
  · intro hexp
    have hq : (fun e : String × Artifact =>
        !decide (now - e.2.created > ttl)) e = false := by
      simp only [he2]
      simp [hexp]
    have hnone : lookup (cleanup ttl now s) id = none := by
      unfold lookup cleanup
      rw [find?_filter_of_dropped s id e _ hnd hfind hq]
      rfl
    rw [get_audio_lookup_none ttl now s id hnone]
  · intro hfresh
    have hq : (fun e : String × Artifact =>
        !decide (now - e.2.created > ttl)) e = true := by
      simp only [he2]
      have hng : ¬ (now - t0 > ttl) := by omega
      simp [hng]
    have hsome : lookup (cleanup ttl now s) id = some e.2 := by
      unfold lookup cleanup
      rw [find?_filter_of_found _ _ s e hfind hq]
      rfl
    rw [get_audio_lookup_some ttl now s id e.2 hsome, he2]

/-- C1 witness: with `ttl = 10` and an entry created at time 0, the lookup
404s at `now = 20` and returns the payload at `now = 5`. -/
theorem get_ttl_boundary_witness :
    (get_audio 10 20 [("a", { created := 0, payload := [7] })] "a").1 =
      GetResult.notFound ∧
    (get_audio 10 5 [("a", { created := 0, payload := [7] })] "a").1 =
      GetResult.ok [7] :=
  ⟨(get_ttl_boundary 10 20 0 [("a", { created := 0, payload := [7] })] "a"
      [7] (by decide) (by decide)).1 (by decide),
   (get_ttl_boundary 10 5 0 [("a", { created := 0, payload := [7] })] "a"
      [7] (by decide) (by decide)).2 (by decide)⟩

/-- C10: `GET /audio/{id}.mp3` never inserts or modifies entries — its only
store effect is the sweep, which removes exactly the over-age entries and
keeps surviving entries (timestamps and payloads) as they were — and a
successful read repeats with the same result. -/
theorem get_audio_frame (ttl now : Int) (s : Store) (id : String)
    (p : Bytes) :
    ((get_audio ttl now s id).2 = cleanup ttl now s) ∧
    (∀ e, e ∈ cleanup ttl now s ↔ e ∈ s ∧ now - e.2.created ≤ ttl) ∧
    ((get_audio ttl now s id).1 = GetResult.ok p →
      (get_audio ttl now (get_audio ttl now s id).2 id).1 =
        GetResult.ok p) := by
  refine ⟨?_, fun e => mem_cleanup ttl now s e, ?_⟩
  · unfold get_audio
    cases hl : lookup (cleanup ttl now s) id <;> simp [hl]
  · intro h
    cases hl : lookup (cleanup ttl now s) id with
    | none =>
        rw [get_audio_lookup_none ttl now s id hl] at h
        exact absurd h (by simp)
    | some a =>
        rw [get_audio_lookup_some ttl now s id a hl] at h
        have hp : a.payload = p := by
          simpa using h
        rw [get_audio_lookup_some ttl now s id a hl]
        have hl2 : lookup (cleanup ttl now (cleanup ttl now s)) id = some a := by
          rw [cleanup_cleanup]; exact hl
        rw [get_audio_lookup_some ttl now (cleanup ttl now s) id a hl2]
        simpa using hp

/-- C10 witness: reading an unexpired entry leaves exactly the swept store
behind, the survivor criterion holds at the stored entry, and the read
repeats with the same payload. -/
theorem get_audio_frame_witness :
    ((get_audio 10 5 [("a", { created := 0, payload := [7] })] "a").2 =
      cleanup 10 5 [("a", { created := 0, payload := [7] })]) ∧
    (("a", ({ created := 0, payload := [7] } : Artifact)) ∈
        cleanup 10 5 [("a", { created := 0, payload := [7] })] ↔
      ("a", ({ created := 0, payload := [7] } : Artifact)) ∈
        [("a", ({ created := 0, payload := [7] } : Artifact))] ∧
      (5 : Int) - 0 ≤ 10) ∧
    ((get_audio 10 5
        (get_audio 10 5 [("a", { created := 0, payload := [7] })] "a").2
        "a").1 = GetResult.ok [7]) := by
  have h := get_audio_frame 10 5 [("a", { created := 0, payload := [7] })]
    "a" [7]
  exact ⟨h.1, h.2.1 ("a", { created := 0, payload := [7] }),
    h.2.2 (by decide)⟩

/-- C2: a successful `POST /tts` whose provider returns the non-empty
payload `p` stores `p` under the fresh id and answers with the locator, and
an immediate `GET /audio/{id}.mp3` (same clock reading) returns exactly `p`;
the configured TTL is taken nonnegative, since a negative TTL expires every
entry at once (the C7 edge case). -/
theorem tts_put_get_roundtrip (ttl : Int) (dv : String) (ds : ℚ) (now : Int)
    (fid baseUrl : String) (req : TTSRequest) (s : Store) (p : Bytes)
    (h0 : 0 ≤ ttl) (hp : p ≠ []) (ht : pyStrip req.text ≠ "") :
    (tts ttl dv ds (fun _ => .ok (.readable p)) now fid baseUrl req s).1 =
      TtsResult.ok fid (baseUrl ++ "/audio/" ++ fid ++ ".mp3") ttl ∧
    (get_audio ttl now
      (tts ttl dv ds (fun _ => .ok (.readable p)) now fid baseUrl req s).2.1
      fid).1 = GetResult.ok p := by
  have hb : p.isEmpty = false := by
    cases p with
    | nil => exact absurd rfl hp
    | cons a t => rfl
  have hmain :
      tts ttl dv ds (fun _ => .ok (.readable p)) now fid baseUrl req s =
      (TtsResult.ok fid (baseUrl ++ "/audio/" ++ fid ++ ".mp3") ttl,
       storePut (cleanup ttl now s) fid { created := now, payload := p },
       [{ model := "gpt-4o-mini-tts",
          voice := pyOrS (pyStrip (pyOrS (resolveVoiceOpt dv req.voice) dv)) dv,
          input := build_tts_input (req.style.getD "") (pyStrip req.text),
          response_format := "mp3",
          speed := some (resolveSpeed ds req.speed) }]) := by
    simp [tts, create_speech_mp3, extractBytes, ht, hb]
  constructor
  · rw [hmain]
  · rw [hmain]
    dsimp only
    have hf := find?_storePut (cleanup ttl now s) fid
      { created := now, payload := p }
    have hsome : lookup (cleanup ttl now
        (storePut (cleanup ttl now s) fid { created := now, payload := p }))
        fid = some ({ created := now, payload := p } : Artifact) :=
      lookup_cleanup_of_found ttl now
        (storePut (cleanup ttl now s) fid { created := now, payload := p })
        fid (fid, { created := now, payload := p }) hf
        (by dsimp only; omega)
    rw [get_audio_lookup_some _ _ _ _ _ hsome]

/-- C2 witness: storing `[9]` via a successful `POST /tts` and reading it
back at the same instant yields `[9]`. -/
theorem tts_put_get_roundtrip_witness :
    (tts 3600 "alloy" 1 (fun _ => .ok (.readable [9])) 0 "f" "b"
        { text := "hi", style := none, voice := none, speed := none } []).1 =
      TtsResult.ok "f" ("b" ++ "/audio/" ++ "f" ++ ".mp3") 3600 ∧
    (get_audio 3600 0
      (tts 3600 "alloy" 1 (fun _ => .ok (.readable [9])) 0 "f" "b"
        { text := "hi", style := none, voice := none, speed := none } []).2.1
      "f").1 = GetResult.ok [9] :=
  tts_put_get_roundtrip 3600 "alloy" 1 0 "f" "b"
    { text := "hi", style := none, voice := none, speed := none } [] [9]
    (by decide) (by decide) (by decide)

/-- C3: a request whose text strips to the empty string makes both
`POST /tts` and `POST /tts/mp3` fail with 400 "text is empty", with no
provider call made (the handlers only run the sweep). -/
theorem empty_text_invalid_input (ttl : Int) (dv : String) (ds : ℚ)
    (provider : Provider) (now : Int) (fid baseUrl : String)
    (req : TTSRequest) (s : Store) (h : pyStrip req.text = "") :
    tts ttl dv ds provider now fid baseUrl req s =
      (.httpError 400 "text is empty", cleanup ttl now s, []) ∧
    tts_mp3 ttl dv ds provider now req s =
      (.httpError 400 "text is empty", cleanup ttl now s, []) := by
  constructor
  · simp [tts, h]
  · simp [tts_mp3, h]

/-- C3 witness: a whitespace-only text is rejected by both endpoints with
400 "text is empty" and an empty provider-call list. -/
theorem empty_text_invalid_input_witness :
    tts 3600 "alloy" 1 (fun _ => .exc (.other "boom")) 0 "f" "b"
      { text := " \n\t ", style := none, voice := none, speed := none } [] =
      (.httpError 400 "text is empty", cleanup 3600 0 [], []) ∧
    tts_mp3 3600 "alloy" 1 (fun _ => .exc (.other "boom")) 0
      { text := " \n\t ", style := none, voice := none, speed := none } [] =
      (.httpError 400 "text is empty", cleanup 3600 0 [], []) :=
  empty_text_invalid_input 3600 "alloy" 1 (fun _ => .exc (.other "boom")) 0
    "f" "b" { text := " \n\t ", style := none, voice := none, speed := none }
    [] (by decide)

/-- C4: when synthesis yields a zero-length byte sequence, both handlers
fail with 500 "TTS failed: Empty audio returned", the store after the failed
request is exactly the swept store (nothing was inserted), and an id not
already present stays unretrievable. -/
theorem empty_audio_synthesis_error (ttl : Int) (dv : String) (ds : ℚ)
    (provider : Provider) (now : Int) (fid baseUrl : String)
    (req : TTSRequest) (s : Store) (calls : List CallArgs)
    (ht : pyStrip req.text ≠ "")
    (hc : create_speech_mp3 dv provider
        (build_tts_input (req.style.getD "") (pyStrip req.text))
        (resolveVoiceOpt dv req.voice) (resolveSpeed ds req.speed) =
        (.ok [], calls)) :
    tts ttl dv ds provider now fid baseUrl req s =
      (.httpError 500 "TTS failed: Empty audio returned",
       cleanup ttl now s, calls) ∧
    tts_mp3 ttl dv ds provider now req s =
      (.httpError 500 "TTS failed: Empty audio returned",
       cleanup ttl now s, calls) ∧
    (lookup (cleanup ttl now s) fid = none →
      (get_audio ttl now
        (tts ttl dv ds provider now fid baseUrl req s).2.1 fid).1 =
        GetResult.notFound) := by
  have h1 : tts ttl dv ds provider now fid baseUrl req s =
      (.httpError 500 "TTS failed: Empty audio returned",
       cleanup ttl now s, calls) := by
    simp [tts, ht, hc]
  have h2 : tts_mp3 ttl dv ds provider now req s =
      (.httpError 500 "TTS failed: Empty audio returned",
       cleanup ttl now s, calls) := by
    simp [tts_mp3, ht, hc]
  refine ⟨h1, h2, fun hn => ?_⟩
  rw [h1]
  dsimp only
  have hn2 : lookup (cleanup ttl now (cleanup ttl now s)) fid = none := by
    rw [cleanup_cleanup]; exact hn
  rw [get_audio_lookup_none ttl now (cleanup ttl now s) fid hn2]

/-- C4 witness: a provider object with neither `read` nor `content` yields
`b""`; both endpoints answer 500 "TTS failed: Empty audio returned", the
store stays swept-empty, and the would-be id is not retrievable. -/
theorem empty_audio_synthesis_error_witness :
    tts 3600 "alloy" 1 (fun _ => .ok .plain) 0 "f" "b"
      { text := "hi", style := none, voice := none, speed := none } [] =
      (.httpError 500 "TTS failed: Empty audio returned", cleanup 3600 0 [],
       [{ model := "gpt-4o-mini-tts", voice := "alloy", input := "hi",
          response_format := "mp3", speed := some 1 }]) ∧
    tts_mp3 3600 "alloy" 1 (fun _ => .ok .plain) 0
      { text := "hi", style := none, voice := none, speed := none } [] =
      (.httpError 500 "TTS failed: Empty audio returned", cleanup 3600 0 [],
       [{ model := "gpt-4o-mini-tts", voice := "alloy", input := "hi",
          response_format := "mp3", speed := some 1 }]) ∧
    (lookup (cleanup 3600 0 []) "f" = none →
      (get_audio 3600 0
        (tts 3600 "alloy" 1 (fun _ => .ok .plain) 0 "f" "b"
          { text := "hi", style := none, voice := none, speed := none }
          []).2.1 "f").1 = GetResult.notFound) :=
  empty_audio_synthesis_error 3600 "alloy" 1 (fun _ => .ok .plain) 0 "f" "b"
    { text := "hi", style := none, voice := none, speed := none } []
    [{ model := "gpt-4o-mini-tts", voice := "alloy", input := "hi",
       response_format := "mp3", speed := some 1 }]
    (by decide) (by rfl)

/-- C5: if the first provider call (with `speed`) raises `TypeError`, the
orchestrator retries exactly once with the same model, voice, input and
output format but without `speed`, and a successful retry is a normal
success; a first-call failure other than `TypeError` propagates with no
retry. -/
theorem speed_fallback_retry (dv : String) (p1 p2 : Provider)
    (input voice0 : String) (speed : ℚ) (obj : AudioObj) (m m2 : String)
    (h1 : p1 { model := "gpt-4o-mini-tts",
               voice := pyOrS (pyStrip (pyOrS voice0 dv)) dv,
               input := input, response_format := "mp3",
               speed := some speed } = .exc (.typeError m))
    (h2 : p1 { model := "gpt-4o-mini-tts",
               voice := pyOrS (pyStrip (pyOrS voice0 dv)) dv,
               input := input, response_format := "mp3",
               speed := none } = .ok obj)
    (h3 : p2 { model := "gpt-4o-mini-tts",
               voice := pyOrS (pyStrip (pyOrS voice0 dv)) dv,
               input := input, response_format := "mp3",
               speed := some speed } = .exc (.other m2)) :
    create_speech_mp3 dv p1 input voice0 speed =
      (.ok (extractBytes obj),
       [{ model := "gpt-4o-mini-tts",
          voice := pyOrS (pyStrip (pyOrS voice0 dv)) dv,
          input := input, response_format := "mp3", speed := some speed },
        { model := "gpt-4o-mini-tts",
          voice := pyOrS (pyStrip (pyOrS voice0 dv)) dv,
          input := input, response_format := "mp3", speed := none }]) ∧
    create_speech_mp3 dv p2 input voice0 speed =
      (.error (.other m2),
       [{ model := "gpt-4o-mini-tts",
          voice := pyOrS (pyStrip (pyOrS voice0 dv)) dv,
          input := input, response_format := "mp3",
          speed := some speed }]) := by
  constructor
  · simp [create_speech_mp3, h1, h2]
  · simp [create_speech_mp3, h3]

/-- C5 witness: a provider rejecting the `speed` keyword is retried once
without it and succeeds; a provider failing otherwise propagates after a
single call. -/
theorem speed_fallback_retry_witness :
    create_speech_mp3 "alloy"
      (fun c => if c.speed.isSome then
        ProviderOutcome.exc (.typeError "no speed kw")
       else .ok (.readable [3])) "hey" "" 1 =
      (.ok (extractBytes (.readable [3])),
       [{ model := "gpt-4o-mini-tts", voice := "alloy", input := "hey",
          response_format := "mp3", speed := some 1 },
        { model := "gpt-4o-mini-tts", voice := "alloy", input := "hey",
          response_format := "mp3", speed := none }]) ∧
    create_speech_mp3 "alloy" (fun _ => .exc (.other "boom")) "hey" "" 1 =
      (.error (.other "boom"),
       [{ model := "gpt-4o-mini-tts", voice := "alloy", input := "hey",
          response_format := "mp3", speed := some 1 }]) :=
  speed_fallback_retry "alloy"
    (fun c => if c.speed.isSome then
      ProviderOutcome.exc (.typeError "no speed kw")
     else .ok (.readable [3]))
    (fun _ => .exc (.other "boom")) "hey" "" 1 (.readable [3])
    "no speed kw" "boom" (by decide) (by decide) (by decide)

/-- C8 counterexample: `POST /tts/mp3` does not leave every prior store
state unchanged — the handler runs the eviction sweep first, so a store
holding an expired entry loses it during a `/tts/mp3` request. -/
theorem tts_mp3_changes_store_cex :
    (tts_mp3 1 "alloy" 1 (fun _ => ProviderOutcome.ok (AudioObj.readable [2]))
        5 { text := "hi", style := none, voice := none, speed := none }
        [("a", { created := 0, payload := [1] })]).2.1 ≠
      [("a", { created := 0, payload := [1] })] := by
  decide

/-- C8 amended: `POST /tts/mp3` never inserts an entry; its only effect on
the store is the eviction sweep, i.e. the store after any `/tts/mp3` request
is exactly the swept prior store. -/
theorem tts_mp3_store_effect (ttl : Int) (dv : String) (ds : ℚ)
    (provider : Provider) (now : Int) (req : TTSRequest) (s : Store) :
    (tts_mp3 ttl dv ds provider now req s).2.1 = cleanup ttl now s := by
  unfold tts_mp3
  dsimp only
  split
  · rfl
  · split
    · rfl
    · split
      · rfl
      · rfl

/-- C9 counterexample: the eviction window is not read from the environment
variable `TTL_SECONDS` — an environment defining only `TTL_SECONDS=5` still
yields the default TTL 3600, not 5. -/
theorem ttl_env_var_name_cex :
    TTL_SECONDS [("TTL_SECONDS", "5")] = some 3600 ∧
    ¬ TTL_SECONDS [("TTL_SECONDS", "5")] = some 5 := by
  decide

/-- C9 amended: the eviction window is configured by the environment
variable `AUDIO_TTL_SECONDS` (integer value when present, 3600 otherwise),
and a successful `POST /tts` reports `expires_in_seconds` equal to the TTL
in force. -/
theorem ttl_seconds_config (env env2 : List (String × String)) (v : String)
    (ttl : Int) (dv : String) (ds : ℚ) (provider : Provider) (now : Int)
    (fid baseUrl : String) (req : TTSRequest) (s : Store)
    (i u : String) (e : Int)
    (hv : pyGetenv env "AUDIO_TTL_SECONDS" = some v)
    (habsent : pyGetenv env2 "AUDIO_TTL_SECONDS" = none)
    (hok : (tts ttl dv ds provider now fid baseUrl req s).1 =
      TtsResult.ok i u e) :
    TTL_SECONDS env = pyInt v ∧
    TTL_SECONDS env2 = some 3600 ∧
    e = ttl := by
  refine ⟨?_, ?_, ?_⟩
  · unfold TTL_SECONDS
    rw [hv]
    rfl
  · unfold TTL_SECONDS
    rw [habsent]
    decide
  · unfold tts at hok
    dsimp only at hok
    split at hok
    · exact absurd hok (by simp)
    · split at hok
      · exact absurd hok (by simp)
      · split at hok
        · exact absurd hok (by simp)
        · injection hok with h1 h2 h3
          exact h3.symm

/-- C9 witness: `AUDIO_TTL_SECONDS=7` gives TTL 7, an empty environment
gives 3600, and a concrete successful `POST /tts` with TTL 9 reports
`expires_in_seconds = 9`. -/
theorem ttl_seconds_config_witness :
    TTL_SECONDS [("AUDIO_TTL_SECONDS", "7")] = pyInt "7" ∧
    TTL_SECONDS ([] : List (String × String)) = some 3600 ∧
    (9 : Int) = 9 :=
  ttl_seconds_config [("AUDIO_TTL_SECONDS", "7")] [] "7" 9 "alloy" 1
    (fun _ => .ok (.readable [2])) 0 "f" "b"
    { text := "hi", style := none, voice := none, speed := none } []
    "f" ("b" ++ "/audio/" ++ "f" ++ ".mp3") 9
    (by decide) (by decide) (by rfl)

end VoiceTTS
